import Mathlib

/-!
# Verification of the adaptive processing queue and memory monitor

Shallow embedding of `src/lib/processingQueue.ts` and
`src/lib/memoryMonitor.ts` from the hapi-boilerplate-typescript
repository, together with proofs/refutations of the specified
properties of the queue subsystem.

Conventions of the embedding:
* JavaScript numbers holding integral quantities (priorities,
  concurrency, thresholds) become `Int` (or `Nat` where the source can
  only ever hold a non-negative count); `Math.floor(x / 2)` on an
  integral value becomes `Int.fdiv x 2` (floor division).
* Percentages compared against thresholds become `ℚ` (the comparison
  logic of the source is exact, no rounding is involved in the
  branches modelled).
* `Partial<T>` option bags become structures of `Option` fields;
  spreading `{ ...defaults, ...options }` becomes `Option.getD`.
* The event-emitter settlement mechanism (`task:<id>:complete` /
  `task:<id>:error` listeners that remove themselves on first
  delivery) is modelled explicitly: the list of events emitted on a
  task's channels is computed, and the caller's future receives the
  first event only (`settleFuture`), exactly as `removeTaskListeners`
  arranges in the source.
-/

namespace ProcessingQueue

/-- Embeds `TaskOptions` (processingQueue.ts lines 21-25) after the defaults of
`enqueue` have been applied: every field is present. -/
structure TaskOptions where
  priority : Int
  timeout : Nat
  retries : Nat
deriving Repr, DecidableEq

/-- Embeds `Task` (processingQueue.ts lines 35-41); the function `fn` and its
`args` are modelled separately, by the behaviour of each attempted
invocation (`OpBehavior` below). -/
structure Task where
  id : String
  options : TaskOptions
  createdAt : Nat
deriving Repr, DecidableEq

/-- The priority insertion of `enqueue` (lines 161-173): find the first
index whose task has strictly smaller priority and splice the new task
there; if no such index exists (`findIndex` returns -1), push at the
end. -/
def enqueueInsert (queue : List Task) (task : Task) : List Task :=
  match queue with
  | [] => [task]
  | t :: ts =>
    if t.options.priority < task.options.priority then
      task :: t :: ts
    else
      t :: enqueueInsert ts task

/-- The caller-supplied option bag of `enqueue` (`options: TaskOptions = {}`
with every field optional). -/
structure EnqueueOptions where
  priority : Option Int
  timeout : Option Nat
  retries : Option Nat
deriving Repr, DecidableEq

/-- Queue configuration `this.config` (lines 60-66). `concurrency` is an
`Int` because `configure` merges caller-supplied values unchecked. -/
structure QueueConfig where
  concurrency : Int
  memoryThreshold : Int
  priorityQueue : Bool
  defaultTimeout : Nat
  defaultRetries : Nat
deriving Repr, DecidableEq

/-- The default configuration (lines 60-66), parameterised by the number
of logical CPUs (`os.cpus().length`). -/
def defaultConfig (ncpus : Nat) : QueueConfig :=
  { concurrency := Int.ofNat (max 1 (ncpus / 2))
    memoryThreshold := 80
    priorityQueue := true
    defaultTimeout := 60000
    defaultRetries := 3 }

/-- Option defaulting performed by `enqueue` (lines 153-157):
`priority: options.priority || 0` (a JS `||`, so an explicit 0 still
yields 0), `timeout: options.timeout || defaultTimeout` (an explicit 0
falls back to the default, 0 being falsy), and
`retries: options.retries !== undefined ? options.retries : defaultRetries`
(an explicit 0 is kept). -/
def resolveOptions (cfg : QueueConfig) (o : EnqueueOptions) : TaskOptions :=
  { priority :=
      match o.priority with
      | some p => if p = 0 then 0 else p
      | none => 0
    timeout :=
      match o.timeout with
      | some t => if t = 0 then cfg.defaultTimeout else t
      | none => cfg.defaultTimeout
    retries :=
      match o.retries with
      | some r => r
      | none => cfg.defaultRetries }

/-- Behaviour of one invocation of a task's asynchronous operation
(`task.fn(...task.args)`): it settles successfully or with an error
after a given delay (in ms, measured from the start of the attempt), or
it never settles. -/
inductive OpBehavior where
  | succeeds (delay : Nat) (value : Nat)
  | fails (delay : Nat) (error : String)
  | hangs
deriving Repr, DecidableEq

/-- An event emitted on one of the task's two channels
(`task:<id>:complete` with the result, or `task:<id>:error` with an
error message). -/
inductive TaskEvent where
  | complete (value : Nat)
  | error (message : String)
deriving Repr, DecidableEq

/-- The synthetic timeout error emitted by the timer callback (line 222):
`new Error(`Task ${task.id} timed out after ${task.options.timeout}ms`)`. -/
def timeoutError (id : String) (timeout : Nat) : TaskEvent :=
  TaskEvent.error s!"Task {id} timed out after {timeout}ms"

/-- Execution trace of a single task serviced by `processQueue`
(lines 213-259) when it is alone at the head of the queue, so that a
retry re-inserted by `unshift` (line 244) is immediately re-admitted by
the next loop iteration.  `ops n` is the behaviour of the operation on
its `n`-th attempt; `retries` is `task.options.retries`; the result is
the time-ordered list of events emitted on the task's channels paired
with the number of times the operation was invoked.

Per attempt a fresh timeout timer is armed (line 221); the operation
wins the race iff its delay is strictly below the timeout, otherwise
the timer fires first, emitting the timeout error and leaving the
operation running abandoned:
* operation resolves before the timeout: `clearTimeout`, emit
  `complete` (lines 229-235);
* operation resolves after the timeout fired: the timeout error was
  already emitted; the late `complete` is still emitted (line 235) but
  finds no listener;
* operation rejects (before or after the timeout fired): `clearTimeout`
  (a no-op if the timer already fired); if `retries > 0` the task is
  unshifted with `retries - 1` and re-executed, else the error is
  emitted (lines 241-251);
* operation hangs: only the timer fires; the `catch` never runs, so no
  retry happens. -/
def runTask (id : String) (timeout : Nat) (ops : Nat → OpBehavior) :
    Nat → Nat → List TaskEvent × Nat
  | retries, attempt =>
    match ops attempt with
    | OpBehavior.succeeds d v =>
      if d < timeout then ([TaskEvent.complete v], 1)
      else ([timeoutError id timeout, TaskEvent.complete v], 1)
    | OpBehavior.fails d e =>
      if d < timeout then
        match retries with
        | 0 => ([TaskEvent.error e], 1)
        | r + 1 =>
          let rest := runTask id timeout ops r (attempt + 1)
          (rest.1, rest.2 + 1)
      else
        match retries with
        | 0 => ([timeoutError id timeout, TaskEvent.error e], 1)
        | r + 1 =>
          let rest := runTask id timeout ops r (attempt + 1)
          (timeoutError id timeout :: rest.1, rest.2 + 1)
    | OpBehavior.hangs => ([timeoutError id timeout], 1)

/-- Settlement of the caller's future.  `enqueue` registers `onComplete`
and `onError` (lines 176-188); whichever fires first calls
`removeTaskListeners` (lines 199-202) removing both, so the future
receives exactly the first event emitted on the task's channels and
every later event finds no listener. -/
def settleFuture (events : List TaskEvent) : List TaskEvent :=
  match events with
  | [] => []
  | e :: _ => [e]

/-- The failure branch of `processQueue` (lines 241-251) at queue level:
if the failed task still has retries, it is `unshift`ed onto the front
of the pending queue with `retries` decremented and nothing is emitted;
otherwise the error is emitted on the task's error channel. -/
def handleFailure (queue : List Task) (task : Task) (err : String) :
    List Task × List TaskEvent :=
  if 0 < task.options.retries then
    ({ task with
        options := { task.options with retries := task.options.retries - 1 } } :: queue,
      [])
  else
    (queue, [TaskEvent.error err])

/-- Mutable state of a `ProcessingQueue` instance (lines 55-66): the
pending task list `queue`, the set `processing` of ids of in-flight
tasks, the `paused` flag, and the configuration. -/
structure QueueState where
  queue : List Task
  processing : Finset String
  paused : Bool
  config : QueueConfig
deriving DecidableEq

/-- The invariant claimed for the queue: positive concurrency, and never
more in-flight tasks than the concurrency limit. -/
def queueInvariant (s : QueueState) : Prop :=
  0 < s.config.concurrency ∧ (s.processing.card : Int) ≤ s.config.concurrency

instance (s : QueueState) : Decidable (queueInvariant s) := by
  unfold queueInvariant; infer_instance

/-- Embeds `Partial<typeof this.config>` as accepted by `configure` (line 90). -/
structure ConfigOptions where
  concurrency : Option Int
  memoryThreshold : Option Int
  priorityQueue : Option Bool
  defaultTimeout : Option Nat
  defaultRetries : Option Nat
deriving Repr, DecidableEq

/-- Embeds `configure` (lines 90-93): `this.config = { ...this.config, ...options }` —
a plain unvalidated merge. -/
def configure (s : QueueState) (o : ConfigOptions) : QueueState :=
  { s with config :=
      { concurrency := o.concurrency.getD s.config.concurrency
        memoryThreshold := o.memoryThreshold.getD s.config.memoryThreshold
        priorityQueue := o.priorityQueue.getD s.config.priorityQueue
        defaultTimeout := o.defaultTimeout.getD s.config.defaultTimeout
        defaultRetries := o.defaultRetries.getD s.config.defaultRetries } }

/-- The state change of `enqueue` (lines 161-173): insert into the
pending list (by priority when `priorityQueue` is set, else FIFO). -/
def enqueue (s : QueueState) (task : Task) : QueueState :=
  { s with queue :=
      if s.config.priorityQueue then enqueueInsert s.queue task
      else s.queue ++ [task] }

/-- One admission step of `processQueue` (lines 210-218): if not paused,
the pending list is non-empty and strictly fewer tasks than
`concurrency` are in flight, shift the head off the queue and add its
id to the `processing` set. -/
def drainAdmit (s : QueueState) : QueueState :=
  match s.queue with
  | [] => s
  | task :: rest =>
    if ¬ s.paused ∧ (s.processing.card : Int) < s.config.concurrency then
      { s with queue := rest, processing := insert task.id s.processing }
    else s

/-- Embeds `pause` (lines 266-270). -/
def pause (s : QueueState) : QueueState :=
  { s with paused := true }

/-- Embeds `pauseAll` (lines 276-283): pause and clear the `processing` set. -/
def pauseAll (s : QueueState) : QueueState :=
  { pause s with processing := ∅ }

/-- Embeds `resume` (lines 289-294): clear the paused flag (it then re-enters
`processQueue`, which `drainAdmit` models stepwise). -/
def resume (s : QueueState) : QueueState :=
  { s with paused := false }

/-- Embeds `clear` (lines 313-318): discard all pending tasks. -/
def clear (s : QueueState) : QueueState :=
  { s with queue := [] }

/-- The `warning` handler of `setupMemoryMonitoring` (lines 102-109): if
there are pending tasks and concurrency exceeds 1, halve it
(`Math.max(1, Math.floor(concurrency / 2))`). -/
def onWarning (s : QueueState) : QueueState :=
  if 0 < s.queue.length ∧ 1 < s.config.concurrency then
    { s with config :=
        { s.config with concurrency := max 1 (Int.fdiv s.config.concurrency 2) } }
  else s

/-- The `critical` handler (lines 112-125): if concurrency exceeds 1,
force it to 1 (the GC request is outside the model). -/
def onCritical (s : QueueState) : QueueState :=
  if 1 < s.config.concurrency then
    { s with config := { s.config with concurrency := 1 } }
  else s

/-- The `normal` handler (lines 128-135), parameterised by
`os.cpus().length`: if concurrency is below `Math.floor(ncpus / 2)`,
reset it to `Math.max(1, Math.floor(ncpus / 2))`. -/
def onNormal (ncpus : Nat) (s : QueueState) : QueueState :=
  if s.config.concurrency < Int.ofNat (ncpus / 2) then
    { s with config :=
        { s.config with concurrency := Int.ofNat (max 1 (ncpus / 2)) } }
  else s

/-- The static default concurrency (line 61):
`Math.max(1, Math.floor(os.cpus().length / 2))`, the value the
`normal` handler restores. -/
def defaultConcurrency (ncpus : Nat) : Int := Int.ofNat (max 1 (ncpus / 2))

/-- The snapshot returned by `status` (lines 300-307). -/
structure Status where
  queueLength : Nat
  processing : Nat
  paused : Bool
  concurrency : Int
deriving Repr, DecidableEq

/-- Embeds `status` (lines 300-307): a read-only snapshot of the queue. -/
def status (s : QueueState) : Status :=
  { queueLength := s.queue.length
    processing := s.processing.card
    paused := s.paused
    concurrency := s.config.concurrency }

/-- The per-caller listener pair registered by `enqueue` (lines 176-188):
`caller` identifies the `enqueue` invocation (hence its future), and
`taskId` the id whose channels both of its listeners are attached to. -/
structure TaskListener where
  caller : Nat
  taskId : String
deriving Repr, DecidableEq

/-- Delivery of one settlement event for task id `id`.  `emit` runs every
listener attached to the `task:<id>` channel: each matching caller's
future is settled with the event's outcome, and (via
`removeTaskListeners`) every matching caller's listener pair is
removed.  Returns (settlements delivered as caller-outcome pairs,
remaining listeners). -/
def emitSettle (listeners : List TaskListener) (id : String) (ev : TaskEvent) :
    List (Nat × TaskEvent) × List TaskListener :=
  (listeners.filterMap fun l => if l.taskId = id then some (l.caller, ev) else none,
    listeners.filter fun l => l.taskId ≠ id)

end ProcessingQueue

namespace MemoryMonitor

/-- Embeds `MemoryThresholds` (memoryMonitor.ts lines 25-29); JS numbers are
modelled as `ℚ`. -/
structure MemoryThresholds where
  warning : ℚ
  critical : ℚ
  interval : ℚ
deriving Repr, DecidableEq

/-- The default thresholds (lines 46-50). -/
def defaultThresholds : MemoryThresholds :=
  { warning := 70, critical := 85, interval := 60000 }

/-- Embeds `Partial<MemoryThresholds>` as accepted by `configure`. -/
structure ThresholdOptions where
  warning : Option ℚ
  critical : Option ℚ
  interval : Option ℚ
deriving Repr, DecidableEq

/-- Embeds `MemoryMonitor.configure` (lines 70-74):
`this.thresholds = { ...this.thresholds, ...options }` — an unvalidated
merge of the caller's options over the stored thresholds. -/
def configure (t : MemoryThresholds) (o : ThresholdOptions) : MemoryThresholds :=
  { warning := o.warning.getD t.warning
    critical := o.critical.getD t.critical
    interval := o.interval.getD t.interval }

/-- The memory classification levels, i.e. the three event names
`checkMemory` can emit. -/
inductive MemoryLevel where
  | normal
  | warning
  | critical
deriving Repr, DecidableEq

/-- The classification-and-emit branch of `checkMemory` (lines 142-166):
given the computed `heapUsedPercent`, the list of level events emitted
for this sample, in order.  The branches are
`if (p > critical) ... else if (p > warning) ... else ...`, each
emitting exactly its own event. -/
def checkMemoryEmits (t : MemoryThresholds) (heapUsedPercent : ℚ) :
    List MemoryLevel :=
  if heapUsedPercent > t.critical then [MemoryLevel.critical]
  else if heapUsedPercent > t.warning then [MemoryLevel.warning]
  else [MemoryLevel.normal]

end MemoryMonitor

namespace ProcessingQueue

/-- The priority insertion of `enqueue` splits the pending list at the
first task of strictly smaller priority: every earlier task has
priority at least `task`'s, so equal-priority tasks keep arrival
order, and when no smaller-priority task exists the new task is
appended. -/
theorem enqueueInsert_eq_takeWhile (q : List Task) (t : Task) :
    enqueueInsert q t =
      q.takeWhile (fun u => t.options.priority ≤ u.options.priority) ++
        t :: q.dropWhile (fun u => t.options.priority ≤ u.options.priority) := by
  induction q with
  | nil => rfl
  | cons u us ih =>
    by_cases h : u.options.priority < t.options.priority
    · simp [enqueueInsert, h, List.takeWhile_cons, List.dropWhile_cons, not_le.mpr h]
    · simp [enqueueInsert, h, List.takeWhile_cons, List.dropWhile_cons, not_lt.mp h, ih]

/-- C2: with priority ordering enabled, `enqueue` inserts a task at the
first index of the pending list whose task's priority is strictly less
than the new task's (appending when no such index exists), so
equal-priority tasks keep arrival order; consequently a task enqueued
with priority `p1` after a pending task of priority `p2 < p1` sits
strictly before it in the pending list and is therefore serviced
strictly before it, `processQueue` admitting the head of the list
first. -/
theorem enqueue_priority_insertion :
    (∀ (q : List Task) (t : Task),
        enqueueInsert q t =
          q.takeWhile (fun u => t.options.priority ≤ u.options.priority) ++
            t :: q.dropWhile (fun u => t.options.priority ≤ u.options.priority)) ∧
    (∀ (q : List Task) (t1 t2 : Task),
        t2 ∈ q → t2.options.priority < t1.options.priority →
        ∃ l r, enqueueInsert q t1 = l ++ t1 :: r ∧ t2 ∉ l ∧ t2 ∈ r) ∧
    (∀ (t : Task) (rest : List Task) (proc : Finset String) (cfg : QueueConfig),
        (proc.card : Int) < cfg.concurrency →
        drainAdmit ⟨t :: rest, proc, false, cfg⟩ =
          ⟨rest, insert t.id proc, false, cfg⟩) := by
  refine ⟨enqueueInsert_eq_takeWhile, ?_, ?_⟩
  · intro q t1 t2 ht2 hp
    refine ⟨q.takeWhile (fun u => t1.options.priority ≤ u.options.priority),
            q.dropWhile (fun u => t1.options.priority ≤ u.options.priority),
            enqueueInsert_eq_takeWhile q t1, ?_, ?_⟩
    · intro hmem
      have h := List.mem_takeWhile_imp hmem
      simp only [decide_eq_true_eq] at h
      exact absurd hp (not_lt.mpr h)
    · have hsplit := List.takeWhile_append_dropWhile
        (fun u => decide (t1.options.priority ≤ u.options.priority)) q
      rw [← hsplit] at ht2
      rcases List.mem_append.mp ht2 with hL | hR
      · have h := List.mem_takeWhile_imp hL
        simp only [decide_eq_true_eq] at h
        exact absurd hp (not_lt.mpr h)
      · exact hR
  · intro t rest proc cfg hc
    simp [drainAdmit, hc]

/-- Concrete instance of `enqueue_priority_insertion`: a priority-5 task
enqueued after a pending priority-1 task lands strictly before it, and
is admitted first. -/
theorem enqueue_priority_insertion_witness :
    (∃ l r,
        enqueueInsert [⟨"b", ⟨1, 100, 0⟩, 0⟩] ⟨"a", ⟨5, 100, 0⟩, 0⟩ =
          l ++ (⟨"a", ⟨5, 100, 0⟩, 0⟩ : Task) :: r ∧
          (⟨"b", ⟨1, 100, 0⟩, 0⟩ : Task) ∉ l ∧
          (⟨"b", ⟨1, 100, 0⟩, 0⟩ : Task) ∈ r) ∧
    drainAdmit ⟨[⟨"a", ⟨5, 100, 0⟩, 0⟩], ∅, false, defaultConfig 4⟩ =
      ⟨[], {"a"}, false, defaultConfig 4⟩ :=
  ⟨enqueue_priority_insertion.2.1 [⟨"b", ⟨1, 100, 0⟩, 0⟩] ⟨"a", ⟨5, 100, 0⟩, 0⟩
      ⟨"b", ⟨1, 100, 0⟩, 0⟩ (by decide) (by decide),
    enqueue_priority_insertion.2.2 ⟨"a", ⟨5, 100, 0⟩, 0⟩ [] ∅ (defaultConfig 4)
      (by decide)⟩

/-- C1: a task submitted through `enqueue` with `retries = 0` settles its
caller's future exactly once — whatever the operation does (resolves,
rejects or hangs, before or after the timeout), exactly one event
reaches the caller's still-attached listeners, so exactly one of
resolve/reject happens and never twice; on success strictly before the
timeout the future resolves with the operation's result, on failure it
rejects with the failure, on timeout with the timeout error.
(`enqueue`'s option defaulting keeps an explicit `retries = 0`, its
check being `options.retries !== undefined`.) -/
theorem settle_exactly_once_no_retries :
    (∀ (id : String) (timeout : Nat) (ops : Nat → OpBehavior),
        (settleFuture (runTask id timeout ops 0 0).1).length = 1) ∧
    (∀ (id : String) (timeout : Nat) (ops : Nat → OpBehavior) (d v : Nat),
        ops 0 = OpBehavior.succeeds d v → d < timeout →
        settleFuture (runTask id timeout ops 0 0).1 = [TaskEvent.complete v]) ∧
    (∀ (id : String) (timeout : Nat) (ops : Nat → OpBehavior) (d : Nat)
        (e : String),
        ops 0 = OpBehavior.fails d e → d < timeout →
        settleFuture (runTask id timeout ops 0 0).1 = [TaskEvent.error e]) ∧
    (∀ (id : String) (timeout : Nat) (ops : Nat → OpBehavior),
        ops 0 = OpBehavior.hangs →
        settleFuture (runTask id timeout ops 0 0).1 = [timeoutError id timeout]) ∧
    (∀ (cfg : QueueConfig) (p : Option Int) (t : Option Nat),
        (resolveOptions cfg ⟨p, t, some 0⟩).retries = 0) := by
  refine ⟨?_, ?_, ?_, ?_, ?_⟩
  · intro id timeout ops
    cases h : ops 0 <;> simp only [runTask, h] <;>
      first
      | (split <;> simp [settleFuture])
      | simp [settleFuture]
  · intro id timeout ops d v h hd
    simp [runTask, h, hd, settleFuture]
  · intro id timeout ops d e h hd
    simp [runTask, h, hd, settleFuture]
  · intro id timeout ops h
    simp [runTask, h, settleFuture]
  · intro cfg p t
    simp [resolveOptions]

/-- Concrete instances of `settle_exactly_once_no_retries`: a retries-0
task resolving at 3ms with timeout 10ms settles with its result; one
failing at 3ms rejects with the failure; a hanging one rejects with
the timeout error. -/
theorem settle_exactly_once_no_retries_witness :
    settleFuture (runTask "t" 10 (fun _ => OpBehavior.succeeds 3 7) 0 0).1 =
        [TaskEvent.complete 7] ∧
    settleFuture (runTask "t" 10 (fun _ => OpBehavior.fails 3 "boom") 0 0).1 =
        [TaskEvent.error "boom"] ∧
    settleFuture (runTask "t" 10 (fun _ => OpBehavior.hangs) 0 0).1 =
        [timeoutError "t" 10] :=
  ⟨settle_exactly_once_no_retries.2.1 "t" 10 (fun _ => OpBehavior.succeeds 3 7)
      3 7 rfl (by decide),
    settle_exactly_once_no_retries.2.2.1 "t" 10
      (fun _ => OpBehavior.fails 3 "boom") 3 "boom" rfl (by decide),
    settle_exactly_once_no_retries.2.2.2.1 "t" 10
      (fun _ => OpBehavior.hangs) rfl⟩

/-- A task whose operation always fails strictly before its timeout
makes `retries + 1` attempts: each failing attempt with retries left is
re-run without emitting anything, and the last one emits the failure. -/
theorem runTask_always_fails_before_timeout (id : String) (timeout d : Nat)
    (e : String) (hd : d < timeout) :
    ∀ retries attempt : Nat,
      runTask id timeout (fun _ => OpBehavior.fails d e) retries attempt =
        ([TaskEvent.error e], retries + 1) := by
  intro retries
  induction retries with
  | zero =>
    intro attempt
    simp [runTask, hd]
  | succ r ih =>
    intro attempt
    simp [runTask, hd, ih (attempt + 1)]

/-- C3: when a task's operation fails before its timeout, the queue with
`retriesRemaining > 0` decrements the count, reinserts the task at the
front of the pending list and settles nothing; with no retries left it
emits the failure, rejecting the future with the failure reason.  A
task submitted with `retries = 2` whose operation always fails is
executed exactly 3 times (1 original + 2 retries) and its future then
rejects with the failure. -/
theorem failure_retry_semantics :
    (∀ (q : List Task) (task : Task) (err : String),
        0 < task.options.retries →
        handleFailure q task err =
          ({ task with options :=
              { task.options with retries := task.options.retries - 1 } } :: q,
            [])) ∧
    (∀ (q : List Task) (task : Task) (err : String),
        task.options.retries = 0 →
        handleFailure q task err = (q, [TaskEvent.error err])) ∧
    (∀ (id : String) (timeout d : Nat) (e : String),
        d < timeout →
        (runTask id timeout (fun _ => OpBehavior.fails d e) 2 0).2 = 3 ∧
        settleFuture
            (runTask id timeout (fun _ => OpBehavior.fails d e) 2 0).1 =
          [TaskEvent.error e]) := by
  refine ⟨?_, ?_, ?_⟩
  · intro q task err h
    simp [handleFailure, h]
  · intro q task err h
    simp [handleFailure, h]
  · intro id timeout d e hd
    rw [runTask_always_fails_before_timeout id timeout d e hd 2 0]
    exact ⟨rfl, rfl⟩

/-- Concrete instances of `failure_retry_semantics`: a task with 2
retries failing at 1ms against a 10ms timeout runs 3 times then
rejects with the failure, and the failure branch reinserts a
decremented copy at the front. -/
theorem failure_retry_semantics_witness :
    handleFailure [] ⟨"t", ⟨0, 10, 2⟩, 0⟩ "boom" =
        ([⟨"t", ⟨0, 10, 1⟩, 0⟩], []) ∧
    handleFailure [] ⟨"t", ⟨0, 10, 0⟩, 0⟩ "boom" =
        ([], [TaskEvent.error "boom"]) ∧
    (runTask "t" 10 (fun _ => OpBehavior.fails 1 "boom") 2 0).2 = 3 :=
  ⟨failure_retry_semantics.1 [] ⟨"t", ⟨0, 10, 2⟩, 0⟩ "boom" (by decide),
    failure_retry_semantics.2.1 [] ⟨"t", ⟨0, 10, 0⟩, 0⟩ "boom" rfl,
    (failure_retry_semantics.2.2 "t" 10 1 "boom" (by decide)).1⟩

/-- A task whose operation always fails at or after the timeout: every
attempt emits the timeout error first, the late failure consumes a
retry and triggers a re-execution until the budget is exhausted, where
the final failure is also emitted. -/
theorem runTask_always_fails_after_timeout (id : String) (timeout d : Nat)
    (e : String) (hd : timeout ≤ d) :
    ∀ retries attempt : Nat,
      runTask id timeout (fun _ => OpBehavior.fails d e) retries attempt =
        (List.replicate (retries + 1) (timeoutError id timeout) ++
            [TaskEvent.error e],
          retries + 1) := by
  intro retries
  induction retries with
  | zero =>
    intro attempt
    simp [runTask, not_lt.mpr hd]
  | succ r ih =>
    intro attempt
    simp [runTask, not_lt.mpr hd, ih (attempt + 1), List.replicate_succ]

/-- Counterexample to C4 as stated: with `timeoutMs = 5` and an
operation that rejects at 7ms, for a task holding 1 retry the timer
fires first and the future rejects with the timeout error — yet the
operation is invoked a second time (2 attempts, not 1): the abandoned
attempt's late failure consumes the retry budget, so the task is *not*
"never retried regardless of remaining retry budget". -/
theorem timeout_never_retried_counterexample :
    (runTask "t" 5 (fun _ => OpBehavior.fails 7 "late") 1 0).2 = 2 ∧
    ¬ (runTask "t" 5 (fun _ => OpBehavior.fails 7 "late") 1 0).2 = 1 ∧
    settleFuture (runTask "t" 5 (fun _ => OpBehavior.fails 7 "late") 1 0).1 =
      [timeoutError "t" 5] := by decide

/-- C4 (amended): if `timeoutMs` elapses before the operation settles,
the future is rejected with the timeout error immediately (the first —
hence the delivered — event is the timeout error), and the timeout
itself triggers no retry: a hanging or late-resolving operation is
executed exactly once regardless of retry budget, as is a
late-failing one with no retries left.  If the operation settles
strictly before `timeoutMs`, its outcome is taken instead and the
timer is cancelled (no timeout event is ever emitted).  Only a late
*failure* of the abandoned operation while retries remain causes a
re-execution, a behaviour established separately for C10. -/
theorem timeout_semantics :
    (∀ (id : String) (timeout retries : Nat),
        runTask id timeout (fun _ => OpBehavior.hangs) retries 0 =
          ([timeoutError id timeout], 1)) ∧
    (∀ (id : String) (timeout : Nat) (ops : Nat → OpBehavior)
        (d v retries : Nat),
        ops 0 = OpBehavior.succeeds d v → d < timeout →
        runTask id timeout ops retries 0 = ([TaskEvent.complete v], 1)) ∧
    (∀ (id : String) (timeout : Nat) (ops : Nat → OpBehavior)
        (d v retries : Nat),
        ops 0 = OpBehavior.succeeds d v → timeout ≤ d →
        runTask id timeout ops retries 0 =
            ([timeoutError id timeout, TaskEvent.complete v], 1) ∧
        settleFuture (runTask id timeout ops retries 0).1 =
            [timeoutError id timeout]) ∧
    (∀ (id : String) (timeout : Nat) (ops : Nat → OpBehavior) (d : Nat)
        (e : String),
        ops 0 = OpBehavior.fails d e → timeout ≤ d →
        runTask id timeout ops 0 0 =
            ([timeoutError id timeout, TaskEvent.error e], 1) ∧
        settleFuture (runTask id timeout ops 0 0).1 =
            [timeoutError id timeout]) := by
  refine ⟨?_, ?_, ?_, ?_⟩
  · intro id timeout retries
    cases retries <;> simp [runTask]
  · intro id timeout ops d v retries h hd
    cases retries <;> simp [runTask, h, hd]
  · intro id timeout ops d v retries h hd
    cases retries <;> simp [runTask, h, not_lt.mpr hd, settleFuture]
  · intro id timeout ops d e h hd
    simp [runTask, h, not_lt.mpr hd, settleFuture]

/-- Concrete instances of `timeout_semantics`: an operation resolving at
3ms against a 10ms timeout resolves the future; one resolving at 15ms
has the future rejected with the timeout error in a single attempt. -/
theorem timeout_semantics_witness :
    runTask "t" 10 (fun _ => OpBehavior.succeeds 3 7) 5 0 =
        ([TaskEvent.complete 7], 1) ∧
    runTask "t" 10 (fun _ => OpBehavior.succeeds 15 7) 5 0 =
        ([timeoutError "t" 10, TaskEvent.complete 7], 1) ∧
    runTask "t" 10 (fun _ => OpBehavior.hangs) 5 0 =
        ([timeoutError "t" 10], 1) :=
  ⟨timeout_semantics.2.1 "t" 10 (fun _ => OpBehavior.succeeds 3 7) 3 7 5 rfl
      (by decide),
    (timeout_semantics.2.2.1 "t" 10 (fun _ => OpBehavior.succeeds 15 7) 15 7 5
        rfl (by decide)).1,
    timeout_semantics.1 "t" 10 5⟩

/-- C10: after the timeout has fired and the caller's future has been
rejected with the timeout error, an abandoned operation that
subsequently fails while `retriesRemaining > 0` is not discarded: the
failure branch reinserts the task at the front of the pending list
with the count decremented (the same `unshift` as any failure), and
the task is executed again — `retries + 1` attempts in total for an
always-late-failing operation — while the caller only ever sees the
original timeout rejection. -/
theorem timeout_then_late_failure_retries :
    (∀ (q : List Task) (task : Task) (err : String),
        0 < task.options.retries →
        handleFailure q task err =
          ({ task with options :=
              { task.options with retries := task.options.retries - 1 } } :: q,
            [])) ∧
    (∀ (id : String) (timeout d : Nat) (e : String) (retries : Nat),
        timeout ≤ d → 0 < retries →
        (runTask id timeout (fun _ => OpBehavior.fails d e) retries 0).2 =
            retries + 1 ∧
        settleFuture
            (runTask id timeout (fun _ => OpBehavior.fails d e) retries 0).1 =
          [timeoutError id timeout]) := by
  refine ⟨?_, ?_⟩
  · intro q task err h
    simp [handleFailure, h]
  · intro id timeout d e retries hd _
    rw [runTask_always_fails_after_timeout id timeout d e hd retries 0]
    exact ⟨rfl, by simp [List.replicate_succ, settleFuture]⟩

/-- Concrete instance of `timeout_then_late_failure_retries`: timeout
5ms, operation failing at 7ms, 1 retry — two executions, caller sees
only the timeout rejection, and the failed task is put back at the
front decremented. -/
theorem timeout_then_late_failure_retries_witness :
    handleFailure [] ⟨"u", ⟨0, 5, 1⟩, 0⟩ "late" = ([⟨"u", ⟨0, 5, 0⟩, 0⟩], []) ∧
    (runTask "u" 5 (fun _ => OpBehavior.fails 7 "late") 1 0).2 = 2 ∧
    settleFuture (runTask "u" 5 (fun _ => OpBehavior.fails 7 "late") 1 0).1 =
      [timeoutError "u" 5] :=
  ⟨timeout_then_late_failure_retries.1 [] ⟨"u", ⟨0, 5, 1⟩, 0⟩ "late" (by decide),
    (timeout_then_late_failure_retries.2 "u" 5 7 "late" 1 (by decide)
        (by decide)).1,
    (timeout_then_late_failure_retries.2 "u" 5 7 "late" 1 (by decide)
        (by decide)).2⟩

/-- C5: on a `warning` memory event with a non-empty pending list and
concurrency above 1, the queue halves concurrency to
`max 1 (floor(concurrency / 2))`; on a `critical` event the handler
itself sets concurrency to 1, so `status().concurrency` reads 1
immediately afterwards; on a `normal` event, a concurrency below the
static default `max 1 (floor(ncpus / 2))` is restored to that default,
and one at or above it is left alone. -/
theorem memory_backpressure_handlers :
    (∀ s : QueueState,
        0 < s.queue.length → 1 < s.config.concurrency →
        (status (onWarning s)).concurrency =
          max 1 (Int.fdiv s.config.concurrency 2)) ∧
    (∀ s : QueueState,
        1 ≤ s.config.concurrency →
        (status (onCritical s)).concurrency = 1) ∧
    (∀ (ncpus : Nat) (s : QueueState),
        1 ≤ s.config.concurrency →
        s.config.concurrency < defaultConcurrency ncpus →
        (status (onNormal ncpus s)).concurrency = defaultConcurrency ncpus) ∧
    (∀ (ncpus : Nat) (s : QueueState),
        defaultConcurrency ncpus ≤ s.config.concurrency →
        (status (onNormal ncpus s)).concurrency = s.config.concurrency) := by
  refine ⟨?_, ?_, ?_, ?_⟩
  · intro s h1 h2
    simp [onWarning, status, h1, h2]
  · intro s h
    rcases lt_or_eq_of_le h with h1 | h1
    · simp [onCritical, status, h1]
    · simp [onCritical, status, ← h1]
  · intro ncpus s h1 h2
    unfold defaultConcurrency at h2 ⊢
    by_cases hm : ncpus / 2 = 0
    · exfalso
      rw [hm] at h2
      norm_num at h2
      omega
    · have hmax : max 1 (ncpus / 2) = ncpus / 2 := by omega
      have h2' : s.config.concurrency < Int.ofNat (ncpus / 2) := by
        rw [hmax] at h2; exact h2
      unfold onNormal
      rw [if_pos h2']
      rfl
  · intro ncpus s h
    unfold defaultConcurrency at h
    have hstep : Int.ofNat (ncpus / 2) ≤ Int.ofNat (max 1 (ncpus / 2)) :=
      Int.ofNat_le.mpr (le_max_right 1 (ncpus / 2))
    have hcond : ¬ s.config.concurrency < Int.ofNat (ncpus / 2) :=
      not_lt.mpr (le_trans hstep h)
    unfold onNormal
    rw [if_neg hcond]
    rfl

/-- Concrete instances of `memory_backpressure_handlers`: with 8 CPUs,
pending work and concurrency 4, a `warning` event halves concurrency
to 2; a `critical` event at concurrency 4 makes `status` read 1
immediately; a `normal` event at concurrency 1 restores the default 4. -/
theorem memory_backpressure_handlers_witness :
    (status (onWarning ⟨[⟨"a", ⟨0, 10, 0⟩, 0⟩], ∅, false,
        { concurrency := 4, memoryThreshold := 80, priorityQueue := true,
          defaultTimeout := 60000, defaultRetries := 3 }⟩)).concurrency = 2 ∧
    (status (onCritical ⟨[], ∅, false,
        { concurrency := 4, memoryThreshold := 80, priorityQueue := true,
          defaultTimeout := 60000, defaultRetries := 3 }⟩)).concurrency = 1 ∧
    (status (onNormal 8 ⟨[], ∅, false,
        { concurrency := 1, memoryThreshold := 80, priorityQueue := true,
          defaultTimeout := 60000, defaultRetries := 3 }⟩)).concurrency = 4 := by
  refine ⟨?_, ?_, ?_⟩
  · have h := memory_backpressure_handlers.1
      ⟨[⟨"a", ⟨0, 10, 0⟩, 0⟩], ∅, false,
        { concurrency := 4, memoryThreshold := 80, priorityQueue := true,
          defaultTimeout := 60000, defaultRetries := 3 }⟩ (by decide) (by decide)
    rw [h]; decide
  · exact memory_backpressure_handlers.2.1
      ⟨[], ∅, false,
        { concurrency := 4, memoryThreshold := 80, priorityQueue := true,
          defaultTimeout := 60000, defaultRetries := 3 }⟩ (by decide)
  · have h := memory_backpressure_handlers.2.2.1 8
      ⟨[], ∅, false,
        { concurrency := 1, memoryThreshold := 80, priorityQueue := true,
          defaultTimeout := 60000, defaultRetries := 3 }⟩ (by decide) (by decide)
    rw [h]; decide

/-- Counterexample to C6 as stated: the `warning` handler and `configure`
do not preserve the claimed invariant.  With concurrency 4, four tasks
in flight and pending work, the `warning` handler halves concurrency
to 2 while the four tasks stay in flight, so `|in-flight| ≤ concurrency`
is broken; and `configure({concurrency: 0})` merges the value
unvalidated, breaking `0 < concurrency`. -/
theorem queue_invariant_counterexample :
    queueInvariant
        ⟨[⟨"e", ⟨0, 10, 0⟩, 0⟩], {"a", "b", "c", "d"}, false,
          { concurrency := 4, memoryThreshold := 80, priorityQueue := true,
            defaultTimeout := 60000, defaultRetries := 3 }⟩ ∧
    ¬ queueInvariant
        (onWarning
          ⟨[⟨"e", ⟨0, 10, 0⟩, 0⟩], {"a", "b", "c", "d"}, false,
            { concurrency := 4, memoryThreshold := 80, priorityQueue := true,
              defaultTimeout := 60000, defaultRetries := 3 }⟩) ∧
    ¬ queueInvariant
        (configure
          ⟨[], ∅, false,
            { concurrency := 4, memoryThreshold := 80, priorityQueue := true,
              defaultTimeout := 60000, defaultRetries := 3 }⟩
          ⟨some 0, none, none, none, none⟩) := by decide

/-- C6 (amended): `enqueue`, queue admission (`drainAdmit`), `pause`,
`pauseAll`, `resume` and `clear` all preserve the invariant
`0 < concurrency ∧ |in-flight| ≤ concurrency`; the three memory-event
handlers preserve `0 < concurrency` (but may leave `|in-flight|`
above a freshly lowered concurrency); and `configure` preserves the
invariant only when any concurrency it supplies is positive and at
least the current in-flight count (it merges values unvalidated). -/
theorem queue_invariant_preservation :
    (∀ (s : QueueState) (t : Task),
        queueInvariant s → queueInvariant (enqueue s t)) ∧
    (∀ s : QueueState, queueInvariant s → queueInvariant (drainAdmit s)) ∧
    (∀ s : QueueState, queueInvariant s → queueInvariant (pause s)) ∧
    (∀ s : QueueState, queueInvariant s → queueInvariant (pauseAll s)) ∧
    (∀ s : QueueState, queueInvariant s → queueInvariant (resume s)) ∧
    (∀ s : QueueState, queueInvariant s → queueInvariant (clear s)) ∧
    (∀ s : QueueState, 0 < s.config.concurrency →
        0 < (onWarning s).config.concurrency ∧
        0 < (onCritical s).config.concurrency ∧
        ∀ ncpus : Nat, 0 < (onNormal ncpus s).config.concurrency) ∧
    (∀ (s : QueueState) (o : ConfigOptions),
        queueInvariant s →
        (∀ c : Int, o.concurrency = some c →
          0 < c ∧ (s.processing.card : Int) ≤ c) →
        queueInvariant (configure s o)) := by
  refine ⟨?_, ?_, ?_, ?_, ?_, ?_, ?_, ?_⟩
  · intro s t h
    simpa only [queueInvariant, enqueue] using h
  · intro s h
    rcases h with ⟨h1, h2⟩
    cases hq : s.queue with
    | nil =>
      simp only [drainAdmit, hq]
      exact ⟨h1, h2⟩
    | cons task rest =>
      simp only [drainAdmit, hq]
      split
      · next hc =>
        refine ⟨h1, ?_⟩
        have hle : ((insert task.id s.processing).card : Int) ≤
            (s.processing.card : Int) + 1 := by
          exact_mod_cast Finset.card_insert_le task.id s.processing
        have h3 := hc.2
        simp only [queueInvariant]
        omega
      · exact ⟨h1, h2⟩
  · intro s h
    simpa only [queueInvariant, pause] using h
  · intro s h
    rcases h with ⟨h1, _⟩
    refine ⟨h1, ?_⟩
    simp [pauseAll, pause]
    omega
  · intro s h
    simpa only [queueInvariant, resume] using h
  · intro s h
    simpa only [queueInvariant, clear] using h
  · intro s h
    refine ⟨?_, ?_, ?_⟩
    · unfold onWarning
      split
      · simp only []
        exact lt_of_lt_of_le Int.zero_lt_one (le_max_left 1 _)
      · exact h
    · unfold onCritical
      split
      · exact Int.zero_lt_one
      · exact h
    · intro ncpus
      unfold onNormal
      split
      · show (0 : Int) < Int.ofNat (max 1 (ncpus / 2))
        exact Int.ofNat_pos.mpr
          (Nat.lt_of_lt_of_le Nat.zero_lt_one (le_max_left 1 (ncpus / 2)))
      · exact h
  · intro s o h ho
    rcases h with ⟨h1, h2⟩
    cases hc : o.concurrency with
    | none =>
      refine ⟨?_, ?_⟩ <;> simp only [queueInvariant, configure, hc, Option.getD]
      · exact h1
      · exact h2
    | some c =>
      rcases ho c hc with ⟨hc1, hc2⟩
      refine ⟨?_, ?_⟩ <;> simp only [queueInvariant, configure, hc, Option.getD]
      · exact hc1
      · exact hc2

/-- Concrete instances of `queue_invariant_preservation`: the invariant
survives one admission step from a valid state, and a `configure` call
supplying a positive concurrency at or above the in-flight count. -/
theorem queue_invariant_preservation_witness :
    queueInvariant
        (drainAdmit
          ⟨[⟨"a", ⟨0, 10, 0⟩, 0⟩], ∅, false,
            { concurrency := 2, memoryThreshold := 80, priorityQueue := true,
              defaultTimeout := 60000, defaultRetries := 3 }⟩) ∧
    queueInvariant
        (configure
          ⟨[], {"a"}, false,
            { concurrency := 2, memoryThreshold := 80, priorityQueue := true,
              defaultTimeout := 60000, defaultRetries := 3 }⟩
          ⟨some 3, none, none, none, none⟩) :=
  ⟨queue_invariant_preservation.2.1
      ⟨[⟨"a", ⟨0, 10, 0⟩, 0⟩], ∅, false,
        { concurrency := 2, memoryThreshold := 80, priorityQueue := true,
          defaultTimeout := 60000, defaultRetries := 3 }⟩ (by decide),
    queue_invariant_preservation.2.2.2.2.2.2.2
      ⟨[], {"a"}, false,
        { concurrency := 2, memoryThreshold := 80, priorityQueue := true,
          defaultTimeout := 60000, defaultRetries := 3 }⟩
      ⟨some 3, none, none, none, none⟩ (by decide)
      (by intro c hc; cases hc; exact ⟨by decide, by decide⟩)⟩

/-- C9: settlement is keyed only by the caller-supplied task id.  Two
callers that enqueued under the same id both listen on the same
channels, so the first settlement event for that id settles both
futures with the same outcome (and removes both listener pairs);
with distinct ids, the event settles only its own caller's future and
leaves the other listener untouched. -/
theorem settlement_keyed_by_task_id :
    (∀ (c1 c2 : Nat) (id : String) (ev : TaskEvent),
        emitSettle [⟨c1, id⟩, ⟨c2, id⟩] id ev = ([(c1, ev), (c2, ev)], [])) ∧
    (∀ (c1 c2 : Nat) (id1 id2 : String) (ev : TaskEvent),
        id1 ≠ id2 →
        emitSettle [⟨c1, id1⟩, ⟨c2, id2⟩] id1 ev =
          ([(c1, ev)], [⟨c2, id2⟩])) := by
  refine ⟨?_, ?_⟩
  · intro c1 c2 id ev
    simp [emitSettle]
  · intro c1 c2 id1 id2 ev h
    simp [emitSettle, h, h.symm]

/-- Concrete instance of `settlement_keyed_by_task_id`: callers 0 and 1
both enqueued id "dup"; completion of "dup" with value 7 settles both
futures with 7; a caller listening on "other" is isolated. -/
theorem settlement_keyed_by_task_id_witness :
    emitSettle [⟨0, "dup"⟩, ⟨1, "dup"⟩] "dup" (TaskEvent.complete 7) =
        ([(0, TaskEvent.complete 7), (1, TaskEvent.complete 7)], []) ∧
    emitSettle [⟨0, "dup"⟩, ⟨1, "other"⟩] "dup" (TaskEvent.complete 7) =
        ([(0, TaskEvent.complete 7)], [⟨1, "other"⟩]) :=
  ⟨settlement_keyed_by_task_id.1 0 1 "dup" (TaskEvent.complete 7),
    settlement_keyed_by_task_id.2 0 1 "dup" "other" (TaskEvent.complete 7)
      (by decide)⟩

end ProcessingQueue

namespace MemoryMonitor

/-- Counterexample to C7 as stated: `MemoryMonitor.configure` performs
no validation, so an invalid option — here a negative warning
percentage — does *not* leave the prior configuration unchanged: it
replaces the stored threshold. -/
theorem monitor_configure_counterexample :
    configure defaultThresholds ⟨some (-5), none, none⟩ ≠ defaultThresholds ∧
    (configure defaultThresholds ⟨some (-5), none, none⟩).warning = -5 := by
  refine ⟨?_, rfl⟩
  intro h
  have hw := congrArg MemoryThresholds.warning h
  norm_num [configure, defaultThresholds] at hw

/-- C7 (amended): `configure` never throws (it is a total merge), but it
performs no validation: any provided value — negative, or a warning at
or above the critical threshold — replaces the stored threshold, with
omitted fields retained from the prior configuration. -/
theorem monitor_configure_merges_unvalidated :
    (∀ (t : MemoryThresholds) (w : ℚ), w < 0 →
        configure t ⟨some w, none, none⟩ =
          { warning := w, critical := t.critical, interval := t.interval }) ∧
    (∀ (t : MemoryThresholds) (w c : ℚ), c ≤ w →
        configure t ⟨some w, some c, none⟩ =
          { warning := w, critical := c, interval := t.interval }) :=
  ⟨fun _ _ _ => rfl, fun _ _ _ _ => rfl⟩

/-- Concrete instance of `monitor_configure_merges_unvalidated`: a
negative warning threshold and an inverted pair are both adopted. -/
theorem monitor_configure_merges_unvalidated_witness :
    configure defaultThresholds ⟨some (-5), none, none⟩ =
        { warning := -5, critical := 85, interval := 60000 } ∧
    configure defaultThresholds ⟨some 90, some 60, none⟩ =
        { warning := 90, critical := 60, interval := 60000 } :=
  ⟨monitor_configure_merges_unvalidated.1 defaultThresholds (-5) (by norm_num),
    monitor_configure_merges_unvalidated.2 defaultThresholds 90 60 (by norm_num)⟩

/-- C8: each sample emits exactly one of {normal, warning, critical},
chosen by strict greater-than comparison against the thresholds, the
critical threshold dominating: above critical only `critical` is
emitted (whatever the warning threshold), at or below critical but
strictly above warning `warning`, otherwise `normal`; usage exactly
equal to a threshold does not trigger that threshold's event. -/
theorem checkMemory_classification :
    (∀ (t : MemoryThresholds) (p : ℚ), (checkMemoryEmits t p).length = 1) ∧
    (∀ (t : MemoryThresholds) (p : ℚ), t.critical < p →
        checkMemoryEmits t p = [MemoryLevel.critical]) ∧
    (∀ (t : MemoryThresholds) (p : ℚ), p ≤ t.critical → t.warning < p →
        checkMemoryEmits t p = [MemoryLevel.warning]) ∧
    (∀ (t : MemoryThresholds) (p : ℚ), p ≤ t.critical → p ≤ t.warning →
        checkMemoryEmits t p = [MemoryLevel.normal]) ∧
    (∀ t : MemoryThresholds, t.warning < t.critical →
        checkMemoryEmits t t.critical = [MemoryLevel.warning] ∧
        checkMemoryEmits t t.warning = [MemoryLevel.normal]) := by
  refine ⟨?_, ?_, ?_, ?_, ?_⟩
  · intro t p
    by_cases h1 : t.critical < p <;> by_cases h2 : t.warning < p <;>
      simp [checkMemoryEmits, h1, h2]
  · intro t p h
    simp [checkMemoryEmits, h]
  · intro t p h1 h2
    simp [checkMemoryEmits, not_lt.mpr h1, h2]
  · intro t p h1 h2
    simp [checkMemoryEmits, not_lt.mpr h1, not_lt.mpr h2]
  · intro t h
    constructor
    · simp [checkMemoryEmits, lt_irrefl, h]
    · simp [checkMemoryEmits, lt_irrefl, not_lt.mpr (le_of_lt h)]

/-- Concrete instances of `checkMemory_classification` at the default
thresholds (warning 70, critical 85): 90% emits only `critical`, 75%
`warning`, 50% `normal`, and exactly 85% emits `warning`, not
`critical`. -/
theorem checkMemory_classification_witness :
    checkMemoryEmits defaultThresholds 90 = [MemoryLevel.critical] ∧
    checkMemoryEmits defaultThresholds 75 = [MemoryLevel.warning] ∧
    checkMemoryEmits defaultThresholds 50 = [MemoryLevel.normal] ∧
    checkMemoryEmits defaultThresholds 85 = [MemoryLevel.warning] :=
  ⟨checkMemory_classification.2.1 defaultThresholds 90 (by norm_num [defaultThresholds]),
    checkMemory_classification.2.2.1 defaultThresholds 75
      (by norm_num [defaultThresholds]) (by norm_num [defaultThresholds]),
    checkMemory_classification.2.2.2.1 defaultThresholds 50
      (by norm_num [defaultThresholds]) (by norm_num [defaultThresholds]),
    (checkMemory_classification.2.2.2.2 defaultThresholds
        (by norm_num [defaultThresholds])).1⟩

end MemoryMonitor

